import Mathlib

/-!
Shallow embedding of gui/src/redux/thunks/session.ts.

The async thunks become explicit state-passing functions.  Each thunk body is a
function from an oracle messenger and a store state to the resulting store
state, the list of messenger requests issued during the run, and an
`Except String` mirroring the fulfilled/rejected status of the returned
promise.  Dispatching a nested thunk (redux-toolkit semantics) always
fulfills: the nested rejection is only re-thrown where the source calls
`unwrapResult`.  Plain `await messenger.request(...)` of a rejected promise
throws at the call site; a tagged error-status response is only an ordinary
value there.
-/

namespace SessionThunks

/-- A chat message as this module sees it: a role tag and text content. -/
structure ChatMessage where
  role : String
  content : String
  deriving DecidableEq

/-- One history entry, wrapping a message (mirrors `h.message` accesses). -/
structure ChatHistoryItem where
  message : ChatMessage
  deriving DecidableEq

/-- The persisted session unit (core `Session`). -/
structure Session where
  sessionId : String
  title : String
  workspaceDirectory : String
  history : List ChatHistoryItem
  deriving DecidableEq

/-- Lightweight index record for listing (core `SessionMetadata`). -/
structure SessionMetadata where
  sessionId : String
  title : String
  workspaceDirectory : Option String
  deriving DecidableEq

/-- Outcome of one messenger request: a tagged success response, a tagged
error-status response, or a rejected promise (an exception thrown at the
`await`). -/
inductive ReqResult (α : Type) where
  | success (content : α)
  | errorStatus (error : String)
  | thrown (error : String)
  deriving DecidableEq

/-- Raw response value for `getWorkspaceDirs` as the code inspects it: the code
checks `Array.isArray(response)`, so the response is either an actual array of
directory strings or the tagged `status`/`content` object shape. -/
inductive DirsResponse where
  | arr (dirs : List String)
  | tagged (status : String) (content : List String)
  deriving DecidableEq

/-- A `getWorkspaceDirs` request either yields a raw response or throws. -/
inductive DirsOutcome where
  | resp (r : DirsResponse)
  | thrown (error : String)
  deriving DecidableEq

/-- The oracle messenger: one field per endpoint used by the thunks, giving the
outcome of a request to that endpoint with the given payload. -/
structure IdeMessenger where
  historyLoad : String → ReqResult Session
  historyList : Option Nat → Option Nat → Option String → ReqResult (List SessionMetadata)
  historyDelete : String → ReqResult Unit
  historySave : Session → ReqResult Unit
  getWorkspaceDirs : DirsOutcome
  chatDescriberDescribe : String → ReqResult String

/-- The slice of the redux store the thunks read and write: the active session
fields, the metadata collection with its loading flag, and the two config
reads (`config.config?.disableSessionTitles`, `selectSelectedChatModel`). -/
structure State where
  id : String
  title : String
  history : List ChatHistoryItem
  allSessionMetadata : List SessionMetadata
  isSessionMetadataLoading : Bool
  disableSessionTitles : Bool
  hasSelectedChatModel : Bool
  deriving DecidableEq

/-- A record of one messenger request issued during a run. -/
inductive Req where
  | historyLoad (id : String)
  | historyList (limit : Option Nat) (offset : Option Nat) (workspaceDirectory : Option String)
  | historyDelete (id : String)
  | historySave (session : Session)
  | getWorkspaceDirs
  | chatDescriberDescribe (text : String)
  deriving DecidableEq

/-- Modelled from the spec: the sentinel "new session" placeholder title
(`NEW_SESSION_TITLE` from core/util/constants, not among the provided
sources); a fixed non-empty string. -/
def NEW_SESSION_TITLE : String := "New Session"

def MAX_TITLE_LENGTH : Nat := 100

/-- Modelled from the spec: sessionSlice reducer `deleteSessionMetadata`
removes the entry for the given session id from the metadata collection
(sessionSlice is not among the provided sources). -/
def deleteSessionMetadataAction (st : State) (id : String) : State :=
  { st with allSessionMetadata := st.allSessionMetadata.filter (fun md => md.sessionId ≠ id) }

/-- Modelled from the spec: sessionSlice reducer `updateSessionMetadata`
optimistically updates the matching entry with the given title and workspace
directory. -/
def updateSessionMetadataAction (st : State) (sessionId title workspaceDirectory : String) :
    State :=
  { st with allSessionMetadata := st.allSessionMetadata.map (fun md =>
      if md.sessionId = sessionId then
        { md with title := title, workspaceDirectory := some workspaceDirectory }
      else md) }

/-- Modelled from the spec: sessionSlice reducer `setAllSessionMetadata`
replaces the full metadata collection (total replacement, not merge). -/
def setAllSessionMetadataAction (st : State) (l : List SessionMetadata) : State :=
  { st with allSessionMetadata := l }

/-- Modelled from the spec: sessionSlice reducer `setIsSessionMetadataLoading`
sets the loading flag. -/
def setIsSessionMetadataLoadingAction (st : State) (b : Bool) : State :=
  { st with isSessionMetadataLoading := b }

/-- Modelled from the spec: sessionSlice reducer `newSession` with a payload
replaces the active session wholesale with the fetched one; with no payload it
activates a brand-new empty session, whose id is not yet a persisted id
(modelled as the absent id `""`) and whose title is the sentinel. -/
def newSessionAction (st : State) (s : Option Session) : State :=
  match s with
  | some s => { st with id := s.sessionId, title := s.title, history := s.history }
  | none => { st with id := "", title := NEW_SESSION_TITLE, history := [] }

/-- Embedding of `getSession`: requests history/load and throws on a tagged error status. -/
def getSession (messenger : IdeMessenger) (id : String) :
    List Req × Except String Session :=
  ([Req.historyLoad id],
    match messenger.historyLoad id with
    | .success content => .ok content
    | .errorStatus e => .error e
    | .thrown e => .error e)

/-- Embedding of `refreshSessionMetadata`: requests history/list, throws on an error-status
response, otherwise clears the loading flag, replaces the metadata collection
with the response content, and returns that content. -/
def refreshSessionMetadata (messenger : IdeMessenger) (st : State)
    (offset limit : Option Nat) (workspaceDirectory : Option String) :
    State × List Req × Except String (List SessionMetadata) :=
  let tr := [Req.historyList limit offset workspaceDirectory]
  match messenger.historyList limit offset workspaceDirectory with
  | .thrown e => (st, tr, .error e)
  | .errorStatus e => (st, tr, .error e)
  | .success content =>
      (setAllSessionMetadataAction (setIsSessionMetadataLoadingAction st false) content,
        tr, .ok content)

/-- Embedding of `updateSession`: optimistic metadata update, then awaits history/save
(whose tagged result is not inspected: only a thrown request rejects), then
awaits a metadata refresh through a nested dispatch whose rejection is not
re-thrown. -/
def updateSession (messenger : IdeMessenger) (st : State) (session : Session) :
    State × List Req × Except String Unit :=
  let st1 := updateSessionMetadataAction st session.sessionId session.title
    session.workspaceDirectory
  match messenger.historySave session with
  | .thrown e => (st1, [Req.historySave session], .error e)
  | _ =>
      let r := refreshSessionMetadata messenger st1 none none (some session.workspaceDirectory)
      (r.1, Req.historySave session :: r.2.1, .ok ())

/-- Modelled from the spec: `renderChatMessage` is an external pure
text-rendering function (out of scope for this core); modelled as returning
the message text content. -/
def renderChatMessage (message : ChatMessage) : String :=
  message.content

/-- A line is blank when `trim` leaves nothing, i.e. all chars are whitespace. -/
def isBlankLine (l : List Char) : Bool :=
  l.all (fun c => c.isWhitespace)

/-- The `text` computed by `getChatTitleFromMessage`: split the rendered
message on newlines, drop blank lines, take the last one (`slice(-1)[0]`),
defaulting to empty (`|| ""`). -/
def lastNonBlankLine (rendered : String) : List Char :=
  ((((rendered.data.splitOn '\n')).filter (fun l => !isBlankLine l)).getLast?).getD []

/-- Embedding of `getChatTitleFromMessage`: last non-blank line of the rendered message,
truncated to `MAX_TITLE_LENGTH` with a trailing ellipsis when too long. -/
def getChatTitleFromMessage (message : ChatMessage) : String :=
  let text := lastNonBlankLine (renderChatMessage message)
  if MAX_TITLE_LENGTH < text.length then
    String.mk (text.take (MAX_TITLE_LENGTH - 3) ++ "...".data)
  else
    String.mk text

/-- The workspace directory adopted from a `getWorkspaceDirs` outcome: a thrown
request is caught and logged; a response contributes a directory only when it
is itself a non-empty array (`Array.isArray(response) && response.length > 0`),
so a tagged object-shaped response never does. -/
def workspaceDirsFirst (o : DirsOutcome) : Option String :=
  match o with
  | .thrown _ => none
  | .resp (.arr (d :: _)) => some d
  | .resp (.arr []) => none
  | .resp (.tagged _ _) => none

/-- The first assistant message text, as read by `saveCurrentSession`
(`history?.filter(h => h.message.role === "assistant")[0]?.message?.content`). -/
def firstAssistantText (st : State) : Option String :=
  ((st.history.filter (fun h => h.message.role = "assistant")).head?).map
    (fun h => h.message.content)

/-- The remote title-describe stage of `saveCurrentSession` (only reached with
the sentinel title): when titles are enabled, a chat model is selected, a
first assistant message with non-empty text exists and title generation is
requested, it asks chatDescriber/describe; a success with non-empty content
replaces the title, every other outcome (error status, thrown and caught,
empty content) leaves it.  Returns the resulting title and the requests
issued. -/
def describeStage (messenger : IdeMessenger) (state : State) (generateTitle : Bool) :
    String × List Req :=
  let title0 := state.title
  if title0 = NEW_SESSION_TITLE then
    if !state.disableSessionTitles && state.hasSelectedChatModel then
      match firstAssistantText state with
      | some assistantResponse =>
          if assistantResponse ≠ "" ∧ generateTitle then
            match messenger.chatDescriberDescribe assistantResponse with
            | .success content =>
                (if content ≠ "" then content else title0,
                  [Req.chatDescriberDescribe assistantResponse])
            | .errorStatus _ => (title0, [Req.chatDescriberDescribe assistantResponse])
            | .thrown _ => (title0, [Req.chatDescriberDescribe assistantResponse])
          else (title0, [])
      | none => (title0, [])
    else (title0, [])
  else (title0, [])

/-- Embedding of `saveCurrentSession`: no-op on empty history; best-effort workspace lookup
defaulting to `""`; optionally opens a fresh session first; resolves the title
through the fallback chain on the state snapshot taken at entry (the metadata
fallback reads the store again, after the possible `newSession`); persists via
`updateSession` and re-throws its rejection (`unwrapResult`). -/
def saveCurrentSession (messenger : IdeMessenger) (st : State)
    (openNewSession generateTitle : Bool) :
    State × List Req × Except String Unit :=
  let state := st
  match state.history with
  | [] => (st, [], .ok ())
  | first :: _ =>
      let workspaceDirectory := (workspaceDirsFirst messenger.getWorkspaceDirs).getD ""
      let st1 := if openNewSession then newSessionAction st none else st
      let stage1 := describeStage messenger state generateTitle
      let title1 := stage1.1
      let title2 := if title1 = NEW_SESSION_TITLE then getChatTitleFromMessage first.message
        else title1
      let title3 :=
        if title2 = "" then
          match st1.allSessionMetadata.find? (fun md => md.sessionId = state.id) with
          | some md => if md.title ≠ "" then md.title else title2
          | none => title2
        else title2
      let title4 := if title3 = "" then NEW_SESSION_TITLE else title3
      let session : Session :=
        { sessionId := state.id, title := title4,
          workspaceDirectory := workspaceDirectory, history := state.history }
      let r := updateSession messenger st1 session
      (r.1, Req.getWorkspaceDirs :: (stage1.2 ++ r.2.1), r.2.2)

/-- Embedding of `loadSession`: optionally awaits a save-current cycle and re-throws its
rejection (`unwrapResult`); only then fetches the target session and replaces
the active session with it. -/
def loadSession (messenger : IdeMessenger) (st : State) (sessionId : String)
    (save : Bool) : State × List Req × Except String Unit :=
  let saved := if save then saveCurrentSession messenger st false true else (st, [], .ok ())
  match saved.2.2 with
  | .error e => (saved.1, saved.2.1, .error e)
  | .ok _ =>
      let fetched := getSession messenger sessionId
      match fetched.2 with
      | .error e => (saved.1, saved.2.1 ++ fetched.1, .error e)
      | .ok session =>
          (newSessionAction saved.1 (some session), saved.2.1 ++ fetched.1, .ok ())

/-- Embedding of `loadLastSession`: best-effort workspace lookup (undefined on failure or on
a non-array response); optionally dispatches a save-current cycle without
re-throwing its rejection; refreshes metadata with limit 1 (a rejected refresh
leaves the payload undefined); then either loads the first listed session or
activates a brand-new empty one. -/
def loadLastSession (messenger : IdeMessenger) (st : State)
    (shouldSaveCurrentSession : Bool) : State × List Req × Except String Unit :=
  let state := st
  let workspaceDirectory := workspaceDirsFirst messenger.getWorkspaceDirs
  let saved :=
    if state.id ≠ "" ∧ shouldSaveCurrentSession then
      saveCurrentSession messenger st false true
    else (st, [], .ok ())
  let refreshed := refreshSessionMetadata messenger saved.1 none (some 1) workspaceDirectory
  let lastSession :=
    match refreshed.2.2 with
    | .ok l => l.head?
    | .error _ => none
  match lastSession with
  | some md =>
      let fetched := getSession messenger md.sessionId
      (match fetched.2 with
       | .error e =>
          (refreshed.1, Req.getWorkspaceDirs :: (saved.2.1 ++ refreshed.2.1 ++ fetched.1),
            .error e)
       | .ok session =>
          (newSessionAction refreshed.1 (some session),
            Req.getWorkspaceDirs :: (saved.2.1 ++ refreshed.2.1 ++ fetched.1), .ok ()))
  | none =>
      (newSessionAction refreshed.1 none,
        Req.getWorkspaceDirs :: (saved.2.1 ++ refreshed.2.1), .ok ())

/-- Embedding of `deleteSession`: optimistic metadata removal; if the deleted id is the
active one, dispatches `loadLastSession` without re-saving and without
re-throwing its rejection; then issues history/delete, throwing on an
error-status response; on success fires a metadata refresh whose result is
discarded (`void dispatch`). -/
def deleteSession (messenger : IdeMessenger) (st : State) (id : String) :
    State × List Req × Except String Unit :=
  let st1 := deleteSessionMetadataAction st id
  let state := st1
  let reloaded :=
    if id = state.id then
      let r := loadLastSession messenger st1 false
      (r.1, r.2.1)
    else (st1, [])
  match messenger.historyDelete id with
  | .thrown e => (reloaded.1, reloaded.2 ++ [Req.historyDelete id], .error e)
  | .errorStatus e => (reloaded.1, reloaded.2 ++ [Req.historyDelete id], .error e)
  | .success _ =>
      let r := refreshSessionMetadata messenger reloaded.1 none none none
      (r.1, reloaded.2 ++ [Req.historyDelete id] ++ r.2.1, .ok ())

/-- The sessions passed to history/save within a request trace, in order. -/
def savedSessions : List Req → List Session
  | [] => []
  | Req.historySave s :: rest => s :: savedSessions rest
  | _ :: rest => savedSessions rest

/-! Concrete fixtures used to exercise the operations on closed inputs. -/

/-- A sample persisted session. -/
def sessA : Session := ⟨"abc", "T", "", [⟨⟨"user", "hi"⟩⟩]⟩

/-- A metadata entry for session `abc`. -/
def mdAbc : SessionMetadata := ⟨"abc", "T", none⟩

/-- A baseline messenger: loads fail, listing succeeds with an empty list,
delete and save succeed, the workspace lookup returns an empty array, and the
describer reports an error status. -/
def mBase : IdeMessenger :=
  { historyLoad := fun _ => .errorStatus "nf"
    historyList := fun _ _ _ => .success []
    historyDelete := fun _ => .success ()
    historySave := fun _ => .success ()
    getWorkspaceDirs := .resp (.arr [])
    chatDescriberDescribe := fun _ => .errorStatus "no" }

/-- A messenger whose history/list request yields an error-status response. -/
def mErrList : IdeMessenger := { mBase with historyList := fun _ _ _ => .errorStatus "boom" }

/-- A messenger whose history/save request yields an error-status response. -/
def mSaveErrStatus : IdeMessenger :=
  { mBase with historySave := fun _ => .errorStatus "save failed" }

/-- A messenger whose history/save request rejects (throws). -/
def mSaveThrown : IdeMessenger := { mBase with historySave := fun _ => .thrown "boom" }

/-- A messenger backed by a store still holding session `abc` as most recent:
listing returns its metadata, loading it succeeds, deletion succeeds, and the
workspace lookup answers with the tagged response shape. -/
def mC2 : IdeMessenger :=
  { historyLoad := fun lid => if lid = "abc" then .success sessA else .errorStatus "nf"
    historyList := fun _ _ _ => .success [mdAbc]
    historyDelete := fun _ => .success ()
    getWorkspaceDirs := .resp (.tagged "success" ["dir"])
    historySave := fun _ => .success ()
    chatDescriberDescribe := fun _ => .errorStatus "no" }

/-- Like `mC2` but the history/delete request yields an error status. -/
def mC6 : IdeMessenger := { mC2 with historyDelete := fun _ => .errorStatus "delete failed" }

/-- A messenger backed by a store whose listings are empty and whose loads
always succeed with a session carrying the requested id. -/
def mWellBehaved : IdeMessenger :=
  { mBase with historyLoad := fun lid => .success ⟨lid, "t", "", []⟩ }

/-- A state with an empty active history. -/
def stEmpty : State := ⟨"abc", "New Session", [], [], true, false, true⟩

/-- A state with an active, already-titled session `abc`. -/
def stA : State := ⟨"abc", "T", [⟨⟨"user", "hi"⟩⟩], [], false, false, true⟩

/-- A state whose active session is `abc` with empty history and whose
metadata collection holds the entry for `abc`. -/
def stC2 : State := ⟨"abc", "T", [], [mdAbc], false, false, true⟩

/-- A state with the sentinel title, titles disabled, a blank-only first
message, and no metadata entry for the active id. -/
def stSentinel : State := ⟨"abc", NEW_SESSION_TITLE, [⟨⟨"user", "   "⟩⟩], [], false, true, true⟩

end SessionThunks
namespace SessionThunks

/-! Shared helper lemmas. -/

theorem savedSessions_append (t1 t2 : List Req) :
    savedSessions (t1 ++ t2) = savedSessions t1 ++ savedSessions t2 := by
  induction t1 with
  | nil => rfl
  | cons r rest ih => cases r <;> simp [savedSessions, ih]

theorem refreshSessionMetadata_preserves_active (messenger : IdeMessenger) (st : State)
    (offset limit : Option Nat) (wd : Option String) :
    (refreshSessionMetadata messenger st offset limit wd).1.id = st.id ∧
    (refreshSessionMetadata messenger st offset limit wd).1.title = st.title ∧
    (refreshSessionMetadata messenger st offset limit wd).1.history = st.history := by
  unfold refreshSessionMetadata
  split <;> simp [setAllSessionMetadataAction, setIsSessionMetadataLoadingAction]

theorem updateSession_preserves_active (messenger : IdeMessenger) (st : State)
    (session : Session) :
    (updateSession messenger st session).1.id = st.id ∧
    (updateSession messenger st session).1.title = st.title ∧
    (updateSession messenger st session).1.history = st.history := by
  unfold updateSession refreshSessionMetadata
  split
  · simp [updateSessionMetadataAction]
  · split <;> simp [updateSessionMetadataAction, setAllSessionMetadataAction,
      setIsSessionMetadataLoadingAction]

theorem savedSessions_updateSession (messenger : IdeMessenger) (st : State)
    (session : Session) :
    savedSessions (updateSession messenger st session).2.1 = [session] := by
  unfold updateSession refreshSessionMetadata
  split
  · simp [savedSessions]
  · split <;> simp [savedSessions]

theorem describeStage_trace (messenger : IdeMessenger) (state : State) (g : Bool) :
    (describeStage messenger state g).2 = [] ∨
    ∃ t, (describeStage messenger state g).2 = [Req.chatDescriberDescribe t] := by
  unfold describeStage
  by_cases ht : state.title = NEW_SESSION_TITLE
  · by_cases hc : (!state.disableSessionTitles && state.hasSelectedChatModel) = true
    · cases ha : firstAssistantText state with
      | none => simp [ht, hc, ha]
      | some t =>
          by_cases hg : t ≠ "" ∧ g = true
          · cases hd : messenger.chatDescriberDescribe t with
            | success c => by_cases hce : c ≠ "" <;> simp [ht, hc, ha, hg, hd, hce]
            | errorStatus e => simp [ht, hc, ha, hg, hd]
            | thrown e => simp [ht, hc, ha, hg, hd]
          · simp [ht, hc, ha, hg]
    · simp [ht, hc]
  · simp [ht]

theorem savedSessions_describeStage (messenger : IdeMessenger) (state : State) (g : Bool) :
    savedSessions (describeStage messenger state g).2 = [] := by
  rcases describeStage_trace messenger state g with h | ⟨t, h⟩ <;> simp [h, savedSessions]

theorem saveCurrentSession_preserves_active (messenger : IdeMessenger) (st : State)
    (g : Bool) :
    (saveCurrentSession messenger st false g).1.id = st.id ∧
    (saveCurrentSession messenger st false g).1.title = st.title ∧
    (saveCurrentSession messenger st false g).1.history = st.history := by
  cases hh : st.history with
  | nil => simp [saveCurrentSession, hh]
  | cons first rest =>
      simp only [saveCurrentSession, hh, Bool.false_eq_true, if_false]
      refine ⟨(updateSession_preserves_active messenger st _).1,
        (updateSession_preserves_active messenger st _).2.1, ?_⟩
      rw [← hh]
      exact (updateSession_preserves_active messenger st _).2.2


/-! Claim C4: title deriver truncation and empty behaviour. -/

/-- C4: for a message whose rendered last non-blank line is longer than 100
characters, the derived title is that line truncated to 97 characters plus an
ellipsis, has length exactly 100, and agrees with the line on the first 97
characters; for a message whose rendered text is empty or all-blank the
derived title is the empty string. -/
theorem c4_title_deriver_truncation (message : ChatMessage) :
    (MAX_TITLE_LENGTH < (lastNonBlankLine (renderChatMessage message)).length →
      (getChatTitleFromMessage message).data
          = (lastNonBlankLine (renderChatMessage message)).take 97 ++ "...".data ∧
      (getChatTitleFromMessage message).length = 100 ∧
      (getChatTitleFromMessage message).data.take 97
          = (lastNonBlankLine (renderChatMessage message)).take 97) ∧
    (lastNonBlankLine (renderChatMessage message) = [] →
      getChatTitleFromMessage message = "") := by
  constructor
  · intro h
    have h97 : 97 ≤ (lastNonBlankLine (renderChatMessage message)).length := by
      have : MAX_TITLE_LENGTH = 100 := rfl
      omega
    have hlen : ((lastNonBlankLine (renderChatMessage message)).take 97).length = 97 := by
      rw [List.length_take]; omega
    have heq : getChatTitleFromMessage message =
        String.mk ((lastNonBlankLine (renderChatMessage message)).take 97 ++ "...".data) := by
      simp only [getChatTitleFromMessage]
      rw [if_pos h]
      rfl
    refine ⟨by rw [heq], ?_, ?_⟩
    · rw [heq]
      show ((lastNonBlankLine (renderChatMessage message)).take 97 ++ "...".data).length = 100
      rw [List.length_append, hlen]
      rfl
    · rw [heq]
      show ((lastNonBlankLine (renderChatMessage message)).take 97 ++ "...".data).take 97
          = (lastNonBlankLine (renderChatMessage message)).take 97
      exact List.take_left' hlen
  · intro h
    simp [getChatTitleFromMessage, h, MAX_TITLE_LENGTH]

/-- Witness for C4: a 101-character message is truncated to a 100-character
title, and an all-blank message derives the empty title. -/
theorem c4_witness :
    (MAX_TITLE_LENGTH
        < (lastNonBlankLine (renderChatMessage ⟨"user", String.mk (List.replicate 101 'a')⟩)).length
      ∧ (getChatTitleFromMessage ⟨"user", String.mk (List.replicate 101 'a')⟩).length = 100)
    ∧ (lastNonBlankLine (renderChatMessage ⟨"user", " \n "⟩) = []
      ∧ getChatTitleFromMessage ⟨"user", " \n "⟩ = "") := by
  constructor
  · exact ⟨by decide,
      ((c4_title_deriver_truncation ⟨"user", String.mk (List.replicate 101 'a')⟩).1
        (by decide)).2.1⟩
  · exact ⟨by decide, (c4_title_deriver_truncation ⟨"user", " \n "⟩).2 (by decide)⟩

/-! Claim C8: save-current is a complete no-op on empty history. -/

/-- C8: with an empty active history, saveCurrentSession returns immediately:
the state is unchanged, no request is issued, and the run fulfills. -/
theorem c8_save_noop_on_empty_history (messenger : IdeMessenger) (st : State)
    (openNewSession generateTitle : Bool) (h : st.history = []) :
    saveCurrentSession messenger st openNewSession generateTitle = (st, [], .ok ()) := by
  simp [saveCurrentSession, h]

/-- Witness for C8 at a concrete empty-history state. -/
theorem c8_witness :
    stEmpty.history = [] ∧ saveCurrentSession mBase stEmpty true true = (stEmpty, [], .ok ()) :=
  ⟨rfl, c8_save_noop_on_empty_history mBase stEmpty true true rfl⟩


/-! Claim C7: refresh-metadata error propagation and total replacement. -/

/-- C7: refreshSessionMetadata propagates an error-status response without
touching the state; on success it clears the loading flag, makes the metadata
collection exactly the response content, returns that content, and leaves the
active session fields alone. -/
theorem c7_refresh_metadata (messenger : IdeMessenger) (st : State)
    (offset limit : Option Nat) (wd : Option String) :
    (∀ e, messenger.historyList limit offset wd = .errorStatus e →
      refreshSessionMetadata messenger st offset limit wd
        = (st, [Req.historyList limit offset wd], .error e)) ∧
    (∀ l, messenger.historyList limit offset wd = .success l →
      (refreshSessionMetadata messenger st offset limit wd).1.isSessionMetadataLoading = false ∧
      (refreshSessionMetadata messenger st offset limit wd).1.allSessionMetadata = l ∧
      (refreshSessionMetadata messenger st offset limit wd).2.2 = .ok l ∧
      (refreshSessionMetadata messenger st offset limit wd).1.id = st.id ∧
      (refreshSessionMetadata messenger st offset limit wd).1.title = st.title ∧
      (refreshSessionMetadata messenger st offset limit wd).1.history = st.history) := by
  constructor
  · intro e h
    simp [refreshSessionMetadata, h]
  · intro l h
    simp [refreshSessionMetadata, h, setAllSessionMetadataAction,
      setIsSessionMetadataLoadingAction]

/-- Witness for C7: a concrete error-status listing propagates, and a concrete
successful listing replaces the collection. -/
theorem c7_witness :
    mErrList.historyList none none none = .errorStatus "boom" ∧
    refreshSessionMetadata mErrList stA none none none
      = (stA, [Req.historyList none none none], .error "boom") ∧
    mC2.historyList none none none = .success [mdAbc] ∧
    (refreshSessionMetadata mC2 stA none none none).1.allSessionMetadata = [mdAbc] ∧
    (refreshSessionMetadata mC2 stA none none none).1.isSessionMetadataLoading = false :=
  ⟨rfl, (c7_refresh_metadata mErrList stA none none none).1 "boom" rfl, rfl,
    ((c7_refresh_metadata mC2 stA none none none).2 [mdAbc] rfl).2.1,
    ((c7_refresh_metadata mC2 stA none none none).2 [mdAbc] rfl).1⟩

/-! Claim C1: updateSession and the history/save result. -/

/-- C1 counterexample: a history/save request that answers with an error
status does not make updateSession fail — the run still fulfills, so an
error-status response does not propagate to the caller. -/
theorem c1_counterexample :
    mSaveErrStatus.historySave sessA = .errorStatus "save failed" ∧
    (updateSession mSaveErrStatus stA sessA).2.2 = .ok () :=
  ⟨rfl, rfl⟩

/-- C1 amended: the history/save request is issued and awaited, but its tagged
result is ignored: an error-status response still lets updateSession fulfill;
only a rejected (thrown) request propagates as a failure. -/
theorem c1_update_session_save_result_ignored (messenger : IdeMessenger) (st : State)
    (session : Session) :
    Req.historySave session ∈ (updateSession messenger st session).2.1 ∧
    (∀ e, messenger.historySave session = .errorStatus e →
      (updateSession messenger st session).2.2 = .ok ()) ∧
    (∀ e, messenger.historySave session = .thrown e →
      (updateSession messenger st session).2.2 = .error e) := by
  refine ⟨?_, fun e he => ?_, fun e he => ?_⟩
  · cases hs : messenger.historySave session with
    | success c => simp [updateSession, hs]
    | errorStatus e => simp [updateSession, hs]
    | thrown e => simp [updateSession, hs]
  · simp [updateSession, he]
  · simp [updateSession, he]

/-- Witness for C1 amended, at concrete error-status and thrown saves. -/
theorem c1_witness :
    Req.historySave sessA ∈ (updateSession mSaveErrStatus stA sessA).2.1 ∧
    (updateSession mSaveErrStatus stA sessA).2.2 = .ok () ∧
    (updateSession mSaveThrown stA sessA).2.2 = .error "boom" :=
  ⟨(c1_update_session_save_result_ignored mSaveErrStatus stA sessA).1,
    (c1_update_session_save_result_ignored mSaveErrStatus stA sessA).2.1 "save failed" rfl,
    (c1_update_session_save_result_ignored mSaveThrown stA sessA).2.2 "boom" rfl⟩


/-- The active-session fields and the promise status produced by
loadLastSession are fully determined by the workspace lookup, the limit-1
listing and the follow-up session fetch; the nested save-current dispatch
contributes nothing to them. -/
theorem loadLastSession_active_result (m : IdeMessenger) (st : State) (b : Bool) :
    ((loadLastSession m st b).1.id, (loadLastSession m st b).1.title,
      (loadLastSession m st b).1.history, (loadLastSession m st b).2.2) =
      match (match m.historyList (some 1) none (workspaceDirsFirst m.getWorkspaceDirs) with
             | .success l => l.head?
             | .errorStatus _ => none
             | .thrown _ => none) with
      | none => ("", NEW_SESSION_TITLE, ([] : List ChatHistoryItem), Except.ok ())
      | some md =>
          match m.historyLoad md.sessionId with
          | .success s => (s.sessionId, s.title, s.history, Except.ok ())
          | .errorStatus e => (st.id, st.title, st.history, Except.error e)
          | .thrown e => (st.id, st.title, st.history, Except.error e) := by
  by_cases hc : st.id ≠ "" ∧ b = true
  · simp only [loadLastSession]
    rw [if_pos hc]
    obtain ⟨h1, h2, h3⟩ := saveCurrentSession_preserves_active m st true
    generalize hX : saveCurrentSession m st false true = X at h1 h2 h3 ⊢
    obtain ⟨X1, tr, r⟩ := X
    simp only at h1 h2 h3
    cases hL : m.historyList (some 1) none (workspaceDirsFirst m.getWorkspaceDirs) with
    | success l =>
        cases l with
        | nil => simp [refreshSessionMetadata, hL, newSessionAction,
            setAllSessionMetadataAction, setIsSessionMetadataLoadingAction]
        | cons md tl =>
            cases hLoad : m.historyLoad md.sessionId <;>
              simp [refreshSessionMetadata, getSession, hL, hLoad, newSessionAction,
                setAllSessionMetadataAction, setIsSessionMetadataLoadingAction, h1, h2, h3]
    | errorStatus e => simp [refreshSessionMetadata, hL, newSessionAction]
    | thrown e => simp [refreshSessionMetadata, hL, newSessionAction]
  · simp only [loadLastSession]
    rw [if_neg hc]
    cases hL : m.historyList (some 1) none (workspaceDirsFirst m.getWorkspaceDirs) with
    | success l =>
        cases l with
        | nil => simp [refreshSessionMetadata, hL, newSessionAction,
            setAllSessionMetadataAction, setIsSessionMetadataLoadingAction]
        | cons md tl =>
            cases hLoad : m.historyLoad md.sessionId <;>
              simp [refreshSessionMetadata, getSession, hL, hLoad, newSessionAction,
                setAllSessionMetadataAction, setIsSessionMetadataLoadingAction]
    | errorStatus e => simp [refreshSessionMetadata, hL, newSessionAction]
    | thrown e => simp [refreshSessionMetadata, hL, newSessionAction]

/-! Claim C5: loadLastSession and the save-current cycle. -/

/-- C5 counterexample: with a rejecting history/save, the save-current cycle
run from this state fails, the state has an active session id, yet
loadLastSession with the save flag still fulfills — the failure does not
propagate to its caller. -/
theorem c5_counterexample :
    (saveCurrentSession mSaveThrown stA false true).2.2 = .error "boom" ∧
    stA.id ≠ "" ∧
    (loadLastSession mSaveThrown stA true).2.2 = .ok () :=
  ⟨rfl, by decide, rfl⟩

/-- C5 amended: the save-current cycle is dispatched and awaited, but its
outcome never influences loadLastSession: two messengers that agree on
listing, loading and the workspace lookup — and may differ arbitrarily on
history/save (and the describer) — give the same resulting active session and
the same promise status. -/
theorem c5_save_failure_does_not_propagate (m m' : IdeMessenger) (st : State)
    (hList : m.historyList = m'.historyList) (hLoad : m.historyLoad = m'.historyLoad)
    (hDirs : m.getWorkspaceDirs = m'.getWorkspaceDirs) :
    (loadLastSession m st true).1.id = (loadLastSession m' st true).1.id ∧
    (loadLastSession m st true).1.title = (loadLastSession m' st true).1.title ∧
    (loadLastSession m st true).1.history = (loadLastSession m' st true).1.history ∧
    (loadLastSession m st true).2.2 = (loadLastSession m' st true).2.2 := by
  have h1 := loadLastSession_active_result m st true
  have h2 := loadLastSession_active_result m' st true
  rw [← hList, ← hLoad, ← hDirs] at h2
  have h := h1.trans h2.symm
  simpa using h

/-- Witness for C5 amended: a rejecting and a succeeding history/save give
loadLastSession the same outcome. -/
theorem c5_witness :
    (loadLastSession mSaveThrown stA true).1.id = (loadLastSession mBase stA true).1.id ∧
    (loadLastSession mSaveThrown stA true).1.title = (loadLastSession mBase stA true).1.title ∧
    (loadLastSession mSaveThrown stA true).1.history
      = (loadLastSession mBase stA true).1.history ∧
    (loadLastSession mSaveThrown stA true).2.2 = (loadLastSession mBase stA true).2.2 :=
  c5_save_failure_does_not_propagate mSaveThrown mBase stA rfl rfl rfl


/-! Claim C2: the active id after deleting a session. -/

/-- C2 counterexample: deleting the active session while the remote store
still lists it as most recent makes the intervening reload re-activate the
very session being deleted: after deleteSession completes successfully the
active id equals the deleted id. -/
theorem c2_counterexample :
    (deleteSession mC2 stC2 "abc").2.2 = .ok () ∧
    (deleteSession mC2 stC2 "abc").1.id = "abc" :=
  ⟨rfl, rfl⟩

/-- C2 amended: after deleteSession finishes, the active id differs from the
deleted id, provided the deleted id is a real (non-empty) id, no successful
listing offers an entry with the deleted id, and loads return a session
carrying the requested id.  (Because the reload runs before the remote
delete, a listing that still contains the deleted session breaks this — see
the counterexample.) -/
theorem c2_delete_leaves_different_active_id (m : IdeMessenger) (st : State) (id : String)
    (hid : id ≠ "")
    (hList : ∀ limit offset wd l, m.historyList limit offset wd = .success l →
        ∀ md ∈ l, md.sessionId ≠ id)
    (hLoad : ∀ lid, ∃ s, m.historyLoad lid = .success s ∧ s.sessionId = lid) :
    (deleteSession m st id).1.id ≠ id := by
  have hpa : ∀ stx : State, (refreshSessionMetadata m stx none none none).1.id = stx.id :=
    fun stx => (refreshSessionMetadata_preserves_active m stx none none none).1
  have hdel : (deleteSessionMetadataAction st id).id = st.id := rfl
  simp only [deleteSession]
  by_cases hc : id = (deleteSessionMetadataAction st id).id
  · rw [if_pos hc]
    have h := loadLastSession_active_result m (deleteSessionMetadataAction st id) false
    cases hL : m.historyList (some 1) none (workspaceDirsFirst m.getWorkspaceDirs) with
    | success l =>
        cases l with
        | nil =>
            rw [hL] at h
            simp only [List.head?, Prod.mk.injEq] at h
            cases hD : m.historyDelete id <;> simp [hD, hpa, h.1, Ne.symm hid]
        | cons md tl =>
            have hmd : md.sessionId ≠ id := hList _ _ _ _ hL md (by simp)
            obtain ⟨s, hs, hsid⟩ := hLoad md.sessionId
            rw [hL] at h
            simp only [List.head?] at h
            rw [hs] at h
            simp only [Prod.mk.injEq] at h
            cases hD : m.historyDelete id <;>
              simp [hD, hpa, h.1, hsid, hmd]
    | errorStatus e =>
        rw [hL] at h
        simp only [Prod.mk.injEq] at h
        cases hD : m.historyDelete id <;> simp [hD, hpa, h.1, Ne.symm hid]
    | thrown e =>
        rw [hL] at h
        simp only [Prod.mk.injEq] at h
        cases hD : m.historyDelete id <;> simp [hD, hpa, h.1, Ne.symm hid]
  · rw [if_neg hc]
    have hne : (deleteSessionMetadataAction st id).id ≠ id := fun he => hc he.symm
    cases hD : m.historyDelete id <;> simp [hD, hpa, hne]

/-- Witness for C2 amended: against a store that no longer lists the deleted
session, deleting the active session leaves a different active id. -/
theorem c2_witness :
    ("abc" : String) ≠ "" ∧ (deleteSession mWellBehaved stC2 "abc").1.id ≠ "abc" := by
  refine ⟨by decide, c2_delete_leaves_different_active_id mWellBehaved stC2 "abc" (by decide)
    ?_ ?_⟩
  · intro a b c l hl md hmd
    cases hl
    simp at hmd
  · exact fun lid => ⟨⟨lid, "t", "", []⟩, rfl, rfl⟩

/-! Claim C6: delete failure, propagation and the optimistic removal. -/

/-- C6 counterexample: when the deleted id is the active one, the reload that
runs before the remote delete refreshes the metadata from the remote list —
which still contains the session — so after the failing delete the
optimistically removed entry is present again. -/
theorem c6_counterexample :
    mC6.historyDelete "abc" = .errorStatus "delete failed" ∧
    (deleteSession mC6 stC2 "abc").2.2 = .error "delete failed" ∧
    mdAbc ∈ (deleteSession mC6 stC2 "abc").1.allSessionMetadata ∧
    mdAbc.sessionId = "abc" := by
  exact ⟨rfl, rfl, by decide, rfl⟩

/-- C6 amended: an error-status history/delete response always propagates to
the caller, and the optimistic removal is never rolled back; when the deleted
id is not the active one, the metadata collection after the failure is
exactly the original collection minus the deleted entry.  (When it is the
active one, the reload dispatched before the remote delete can re-introduce
the entry from the remote listing — see the counterexample.) -/
theorem c6_delete_error_propagates_without_rollback (m : IdeMessenger) (st : State)
    (id e : String) (hD : m.historyDelete id = .errorStatus e) :
    (deleteSession m st id).2.2 = .error e ∧
    (id ≠ st.id →
      (deleteSession m st id).1.allSessionMetadata
        = st.allSessionMetadata.filter (fun md => md.sessionId ≠ id)) := by
  constructor
  · simp [deleteSession, hD]
  · intro hne
    have hne' : ¬(id = (deleteSessionMetadataAction st id).id) := hne
    simp only [deleteSession]
    rw [if_neg hne']
    simp [hD, deleteSessionMetadataAction]

/-- Witness for C6 amended: deleting a non-active session whose remote delete
fails leaves the entry removed locally and surfaces the error. -/
theorem c6_witness :
    mC6.historyDelete "xyz" = .errorStatus "delete failed" ∧
    ("xyz" : String) ≠ stC2.id ∧
    (deleteSession mC6 stC2 "xyz").2.2 = .error "delete failed" ∧
    (deleteSession mC6 stC2 "xyz").1.allSessionMetadata
      = stC2.allSessionMetadata.filter (fun md => md.sessionId ≠ "xyz") :=
  ⟨rfl, by decide,
    (c6_delete_error_propagates_without_rollback mC6 stC2 "xyz" "delete failed" rfl).1,
    (c6_delete_error_propagates_without_rollback mC6 stC2 "xyz" "delete failed" rfl).2
      (by decide)⟩


/-- When titling is disabled by configuration, or every describe response
fails to carry a non-empty title, the describe stage leaves the title as it
was. -/
theorem describeStage_title_unresolved (messenger : IdeMessenger) (state : State) (g : Bool)
    (hFail : state.disableSessionTitles = true ∨
      ∀ t c, messenger.chatDescriberDescribe t = .success c → c = "") :
    (describeStage messenger state g).1 = state.title := by
  unfold describeStage
  by_cases ht : state.title = NEW_SESSION_TITLE
  · rcases hFail with hd | hf
    · simp [ht, hd]
    · by_cases hc : (!state.disableSessionTitles && state.hasSelectedChatModel) = true
      · cases ha : firstAssistantText state with
        | none => simp [ht, hc, ha]
        | some t =>
            by_cases hg : t ≠ "" ∧ g = true
            · cases hd : messenger.chatDescriberDescribe t with
              | success c =>
                  have hce := hf t c hd
                  simp [ht, hc, ha, hg, hd, hce]
              | errorStatus e => simp [ht, hc, ha, hg, hd]
              | thrown e => simp [ht, hc, ha, hg, hd]
            · simp [ht, hc, ha, hg]
      · simp [ht, hc]
  · simp [ht]

/-! Claim C3: the title fallback chain bottoms out at the sentinel. -/

/-- C3: when the active title is the sentinel, the describe stage is disabled
or fails, the title derived from the first message is empty, and no metadata
entry matches the active id, the session persisted by saveCurrentSession
carries exactly the sentinel title — and the sentinel is not empty. -/
theorem c3_title_falls_back_to_sentinel (messenger : IdeMessenger) (st : State)
    (o g : Bool) (first : ChatHistoryItem) (rest : List ChatHistoryItem)
    (hHist : st.history = first :: rest)
    (hTitle : st.title = NEW_SESSION_TITLE)
    (hFail : st.disableSessionTitles = true ∨
      ∀ t c, messenger.chatDescriberDescribe t = .success c → c = "")
    (hDerive : getChatTitleFromMessage first.message = "")
    (hMeta : ∀ md ∈ st.allSessionMetadata, md.sessionId ≠ st.id) :
    (savedSessions (saveCurrentSession messenger st o g).2.1).map Session.title
        = [NEW_SESSION_TITLE] ∧
    NEW_SESSION_TITLE ≠ "" := by
  refine ⟨?_, by decide⟩
  have hstage : (describeStage messenger st g).1 = st.title :=
    describeStage_title_unresolved messenger st g hFail
  have hmeta1 : (if o = true then newSessionAction st none else st).allSessionMetadata
      = st.allSessionMetadata := by
    split <;> rfl
  have hfind : List.find? (fun md => md.sessionId = st.id)
      ((if o = true then newSessionAction st none else st).allSessionMetadata) = none := by
    rw [hmeta1]
    rw [List.find?_eq_none]
    intro md hmd
    simp [hMeta md hmd]
  simp only [saveCurrentSession, hHist, hstage, hTitle, hfind]
  simp only [savedSessions, savedSessions_append, savedSessions_describeStage,
    savedSessions_updateSession, hDerive]
  simp


/-- Witness for C3: a sentinel-titled session with a blank first message,
titles disabled and no matching metadata is persisted with the sentinel
title. -/
theorem c3_witness :
    (savedSessions (saveCurrentSession mBase stSentinel false true).2.1).map Session.title
      = [NEW_SESSION_TITLE] :=
  (c3_title_falls_back_to_sentinel mBase stSentinel false true ⟨⟨"user", "   "⟩⟩ [] rfl rfl
    (Or.inl rfl) (by decide) (by simp [stSentinel])).1

/-- updateSession never issues a history/load request. -/
theorem updateSession_no_historyLoad (messenger : IdeMessenger) (st : State)
    (session : Session) (lid : String) :
    Req.historyLoad lid ∉ (updateSession messenger st session).2.1 := by
  unfold updateSession refreshSessionMetadata
  split
  · simp
  · split <;> simp

/-- saveCurrentSession never issues a history/load request. -/
theorem saveCurrentSession_no_historyLoad (messenger : IdeMessenger) (st : State)
    (o g : Bool) (lid : String) :
    Req.historyLoad lid ∉ (saveCurrentSession messenger st o g).2.1 := by
  cases hh : st.history with
  | nil => simp [saveCurrentSession, hh]
  | cons first rest =>
      simp only [saveCurrentSession, hh]
      intro hmem
      simp only [List.mem_cons, List.mem_append] at hmem
      rcases hmem with h | h | h
      · simp at h
      · rcases describeStage_trace messenger st g with hd | ⟨t, hd⟩ <;> rw [hd] at h <;>
          simp at h
      · exact updateSession_no_historyLoad messenger _ _ lid h

/-! Claim C9: loadSession gates the fetch on the save-current cycle. -/

/-- C9: with the save flag set, a failing save-current cycle makes
loadSession fail with that error, without issuing any history/load request
and leaving the active session untouched; when the save cycle fulfills (or
the flag is unset), the target id is fetched and, on a successful load, the
active session is completely replaced by the fetched one. -/
theorem c9_load_aborts_when_save_fails (messenger : IdeMessenger) (st : State) (sid : String) :
    (∀ e, (saveCurrentSession messenger st false true).2.2 = .error e →
      (loadSession messenger st sid true).2.2 = .error e ∧
      (∀ lid, Req.historyLoad lid ∉ (loadSession messenger st sid true).2.1) ∧
      (loadSession messenger st sid true).1.id = st.id ∧
      (loadSession messenger st sid true).1.title = st.title ∧
      (loadSession messenger st sid true).1.history = st.history) ∧
    (∀ u, (saveCurrentSession messenger st false true).2.2 = .ok u →
      Req.historyLoad sid ∈ (loadSession messenger st sid true).2.1 ∧
      ∀ s, messenger.historyLoad sid = .success s →
        (loadSession messenger st sid true).1.id = s.sessionId ∧
        (loadSession messenger st sid true).1.title = s.title ∧
        (loadSession messenger st sid true).1.history = s.history ∧
        (loadSession messenger st sid true).2.2 = .ok ()) ∧
    (Req.historyLoad sid ∈ (loadSession messenger st sid false).2.1 ∧
      ∀ s, messenger.historyLoad sid = .success s →
        (loadSession messenger st sid false).1.id = s.sessionId ∧
        (loadSession messenger st sid false).1.title = s.title ∧
        (loadSession messenger st sid false).1.history = s.history ∧
        (loadSession messenger st sid false).2.2 = .ok ()) := by
  have hnl := saveCurrentSession_no_historyLoad messenger st false true
  obtain ⟨hp1, hp2, hp3⟩ := saveCurrentSession_preserves_active messenger st true
  refine ⟨fun e he => ?_, fun u hu => ?_, ?_⟩
  · simp only [loadSession, if_true, he]
    exact ⟨trivial, fun lid => hnl lid, hp1, hp2, hp3⟩
  · simp only [loadSession, if_true, hu]
    constructor
    · cases hload : messenger.historyLoad sid <;> simp [getSession, hload]
    · intro s hs
      simp [getSession, hs, newSessionAction]
  · simp only [loadSession, Bool.false_eq_true, if_false]
    constructor
    · cases hload : messenger.historyLoad sid <;> simp [getSession, hload]
    · intro s hs
      simp [getSession, hs, newSessionAction]

/-- Witness for C9: a rejecting save makes the load abort before fetching,
while a clean save (or an unset flag) lets the fetch replace the session. -/
theorem c9_witness :
    (saveCurrentSession mSaveThrown stA false true).2.2 = .error "boom" ∧
    (loadSession mSaveThrown stA "abc" true).2.2 = .error "boom" ∧
    (saveCurrentSession mC2 stA false true).2.2 = .ok () ∧
    mC2.historyLoad "abc" = .success sessA ∧
    (loadSession mC2 stA "abc" true).1.id = sessA.sessionId ∧
    (loadSession mC2 stA "abc" false).2.2 = .ok () := by
  refine ⟨rfl, ((c9_load_aborts_when_save_fails mSaveThrown stA "abc").1 "boom" rfl).1,
    rfl, rfl, ?_, ?_⟩
  · exact (((c9_load_aborts_when_save_fails mC2 stA "abc").2.1 () rfl).2 sessA rfl).1
  · exact ((c9_load_aborts_when_save_fails mC2 stA "abc").2.2.2 sessA rfl).2.2.2


/-! Claim C10: workspace directories are adopted only from a bare array. -/

/-- C10: a directory is adopted only when the getWorkspaceDirs response is
itself a non-empty array; under the tagged response shape — success or not —
loadLastSession refreshes with no workspace directory and saveCurrentSession
persists the empty workspace directory. -/
theorem c10_workspace_dirs_only_from_array :
    (∀ status content, workspaceDirsFirst (.resp (.tagged status content)) = none) ∧
    (∀ d ds, workspaceDirsFirst (.resp (.arr (d :: ds))) = some d) ∧
    (∀ (messenger : IdeMessenger) (st : State) (b : Bool) status content,
      messenger.getWorkspaceDirs = .resp (.tagged status content) →
      Req.historyList (some 1) none none ∈ (loadLastSession messenger st b).2.1) ∧
    (∀ (messenger : IdeMessenger) (st : State) (o g : Bool) status content,
      messenger.getWorkspaceDirs = .resp (.tagged status content) →
      ∀ s ∈ savedSessions (saveCurrentSession messenger st o g).2.1,
        s.workspaceDirectory = "") := by
  refine ⟨fun status content => rfl, fun d ds => rfl, ?_, ?_⟩
  · intro messenger st b status content hdirs
    have hwd : workspaceDirsFirst messenger.getWorkspaceDirs = none := by
      rw [hdirs]; rfl
    simp only [loadLastSession, hwd]
    cases hL : messenger.historyList (some 1) none none with
    | success l =>
        cases l with
        | nil => simp [refreshSessionMetadata, hL]
        | cons md tl =>
            cases hload : messenger.historyLoad md.sessionId <;>
              simp [refreshSessionMetadata, getSession, hL, hload]
    | errorStatus e => simp [refreshSessionMetadata, hL]
    | thrown e => simp [refreshSessionMetadata, hL]
  · intro messenger st o g status content hdirs s hs
    cases hh : st.history with
    | nil => simp [saveCurrentSession, hh, savedSessions] at hs
    | cons first rest =>
        simp only [saveCurrentSession, hh, savedSessions, savedSessions_append,
          savedSessions_describeStage, savedSessions_updateSession] at hs
        simp only [List.nil_append, List.mem_singleton] at hs
        rw [hs]
        simp [hdirs, workspaceDirsFirst]

/-- Witness for C10: under a tagged success response carrying a directory,
no directory is adopted. -/
theorem c10_witness :
    workspaceDirsFirst (.resp (.tagged "success" ["dir"])) = none ∧
    workspaceDirsFirst (.resp (.arr ["dir"])) = some "dir" ∧
    Req.historyList (some 1) none none ∈ (loadLastSession mC2 stC2 false).2.1 ∧
    ∀ s ∈ savedSessions (saveCurrentSession mC2 stA false false).2.1,
      s.workspaceDirectory = "" :=
  ⟨c10_workspace_dirs_only_from_array.1 "success" ["dir"],
    c10_workspace_dirs_only_from_array.2.1 "dir" [],
    c10_workspace_dirs_only_from_array.2.2.1 mC2 stC2 false "success" ["dir"] rfl,
    c10_workspace_dirs_only_from_array.2.2.2 mC2 stA false false "success" ["dir"] rfl⟩

end SessionThunks
